import Mathlib

/-!
Verification of the WeixinWorkflow pipeline core
(`src/services/weixin-article.workflow.ts` and the cron entry point).

The workflow is embedded shallowly: every external collaborator
(feed API, scraper, summarizer, image generator, publisher, renderer,
notifier) is a field of an `Env` record mapping the request to
`Except String` of its response, exactly at the call sites the source
uses.  Thrown JS errors are `Except.error msg`; notifications are a
trace of `Notification` values; the mutable `this.stats` object is an
explicit `Stats` value threaded through `process`.
-/

namespace Weixin

/-- One element of the feed API's `data` array (the `apiData.data` item shape
declared inline in `process`). -/
structure FeedItem where
  author : String
  cover : String
  id : String
  mobileUrl : String
  timestamp : Nat
  title : String
  url : String
  deriving DecidableEq, Repr

/-- The metadata bag of a `ScrapedContent`; only the `keywords` field is
read or written by the workflow.  `none` models an absent JS property. -/
structure Metadata where
  keywords : Option (List String)
  deriving DecidableEq, Repr

/-- `ScrapedContent` as the workflow uses it: id, title, body, url,
publish date, metadata bag and optional score. -/
structure ScrapedContent where
  id : String
  title : String
  content : String
  url : String
  publishDate : String
  metadata : Metadata
  score : Option Int
  deriving DecidableEq, Repr

/-- The summarizer's response `{title, content, score, keywords}`. -/
structure Summary where
  title : String
  content : String
  score : Int
  keywords : List String
  deriving DecidableEq, Repr

/-- Outcome of one publish call; the workflow only inspects `status`. -/
structure PublishResult where
  status : String
  deriving DecidableEq, Repr

/-- The `WeixinTemplate` article projection built in step 3 of the loop. -/
structure WeixinTemplate where
  id : String
  title : String
  content : String
  url : String
  publishDate : String
  metadata : Metadata
  keywords : Option (List String)
  deriving DecidableEq, Repr

/-- A message sent through the Bark notifier, tagged with its severity. -/
inductive Notification where
  | info (title body : String)
  | warning (title body : String)
  | error (title body : String)
  | success (title body : String)
  deriving DecidableEq, Repr

/-- The `this.stats` counters of `WeixinWorkflow`. -/
structure Stats where
  success : Nat
  failed : Nat
  contents : Nat
  deriving DecidableEq, Repr

/-- The field initializer of `WeixinWorkflow.stats` (runs once, at
construction of the instance). -/
def initialStats : Stats := ⟨0, 0, 0⟩

/-- Behaviour of all external collaborators during one run.  An
`Except.error msg` models the JS call rejecting/throwing with message
`msg`. -/
structure Env where
  /-- `this.deepSeekClient.getCNYBalance()` -/
  deepSeekBalance : Rat
  /-- whether `sourceConfigs.All.api` exists and is non-empty -/
  apiConfigured : Bool
  /-- `axios.get(apiUrl)`: the feed response's `data` array, or a thrown error -/
  feedResult : Except String (List FeedItem)
  /-- `fireCrawlScraper.scrape(url)` -/
  scrape : String → Except String (List ScrapedContent)
  /-- `this.summarizer.summarize(JSON.stringify(content))` -/
  summarize : ScrapedContent → Except String Summary
  /-- `this.imageGenerator.generateImage(prompt, size)` reduced to its task id -/
  genImage : String → Except String String
  /-- `this.imageGenerator.waitForCompletion(taskId)` reduced to
  `res.results?[0]?.url` (`none` when absent) -/
  waitCompletion : String → Except String (Option String)
  /-- `this.publisher.uploadImage(imageUrl)` -/
  uploadImage : String → Except String String
  /-- `this.renderer.render(articles)` -/
  render : List WeixinTemplate → Except String String
  /-- `this.publisher.publish(rendered, title, summary, mediaId)` -/
  publish : String → String → String → String → Except String PublishResult

/-- JS `a || b` on strings: the empty string is falsy. -/
def jsOr (s d : String) : String := if s = "" then d else s

/-- JS `a || b` where `a` is a possibly-absent list property. -/
def jsOrList (a : Option (List String)) (d : List String) : List String :=
  match a with
  | none => d
  | some l => l

/-- `WeixinWorkflow.processContent`: mutate the content with the summary
on success; on failure warn and fall back to the original values /
placeholders.  Returns the mutated content and the notifications sent. -/
def processContent (env : Env) (content : ScrapedContent) :
    ScrapedContent × List Notification :=
  match env.summarize content with
  | Except.ok summary =>
      ({ content with
          title := summary.title
          content := summary.content
          score := some summary.score
          metadata := { content.metadata with keywords := some summary.keywords } },
       [])
  | Except.error _ =>
      ({ content with
          title := jsOr content.title "无标题"
          content := jsOr content.content "内容处理失败"
          metadata := { content.metadata with
                        keywords := some (jsOrList content.metadata.keywords []) } },
       [Notification.warning "内容处理失败" ("ID: " ++ content.id ++ "\n保留原始内容")])

/-- `WeixinWorkflow.generateAndUploadCover`: submit the generation task,
wait for completion, fail when no result url came back, then upload. -/
def generateAndUploadCover (env : Env) (title : String) : Except String String :=
  match env.genImage ("帮我生成一个标题封面，标题是：" ++ title ++
      " ,封面不需要文字，找最符合标题的图片") with
  | Except.error e => Except.error e
  | Except.ok taskId =>
      match env.waitCompletion taskId with
      | Except.error e => Except.error e
      | Except.ok none => Except.error "封面图片生成失败"
      | Except.ok (some url) => env.uploadImage url

/-- Step 3 of the loop: build the `WeixinTemplate` article from the
(processed) content. -/
def toWeixinTemplate (c : ScrapedContent) : WeixinTemplate :=
  { id := c.id
    title := c.title
    content := c.content
    url := c.url
    publishDate := c.publishDate
    metadata := c.metadata
    keywords := c.metadata.keywords }

/-- The warning sent from the loop's `catch` block for a failed item. -/
def itemWarning (item : FeedItem) (msg : String) : Notification :=
  Notification.warning "内容处理失败" ("URL: " ++ item.url ++ "\n错误: " ++ msg)

/-- The body of the `for (const item of apiData.data)` loop for one item:
scrape, (if non-empty) summarize, build the article, generate the cover,
render, publish.  Any raising stage lands in the `catch` branch:
`failed` is incremented, an `itemWarning` is sent, no result is pushed.
Returns (new stats, pushed publish result if any, notifications sent). -/
def stepItem (env : Env) (item : FeedItem) (st : Stats) :
    Stats × Option PublishResult × List Notification :=
  match env.scrape item.url with
  | Except.error msg =>
      ({ st with failed := st.failed + 1 }, none, [itemWarning item msg])
  | Except.ok [] =>
      ({ st with failed := st.failed + 1 }, none, [])
  | Except.ok (c :: _) =>
      let pc := processContent env c
      let article := toWeixinTemplate pc.1
      match generateAndUploadCover env article.title with
      | Except.error msg =>
          ({ st with failed := st.failed + 1 }, none, pc.2 ++ [itemWarning item msg])
      | Except.ok mediaId =>
          match env.render [article] with
          | Except.error msg =>
              ({ st with failed := st.failed + 1 }, none, pc.2 ++ [itemWarning item msg])
          | Except.ok rendered =>
              match env.publish rendered article.title article.title mediaId with
              | Except.error msg =>
                  ({ st with failed := st.failed + 1 }, none, pc.2 ++ [itemWarning item msg])
              | Except.ok pr =>
                  ({ st with success := st.success + 1, contents := st.contents + 1 },
                   some pr, pc.2)

/-- The whole per-item loop over the (already capped) batch, in input
order.  Accumulates stats, the `publishResults` array, and the
notification trace. -/
def runLoop (env : Env) (items : List FeedItem) (st : Stats) :
    Stats × List PublishResult × List Notification :=
  match items with
  | [] => (st, [], [])
  | item :: rest =>
      let r := stepItem env item st
      let l := runLoop env rest r.1
      (l.1, r.2.1.toList ++ l.2.1, r.2.2 ++ l.2.2)

/-- `r.status === "published" || r.status === "draft"` from the final
report's `successCount` filter. -/
def isPub (r : PublishResult) : Bool :=
  r.status == "published" || r.status == "draft"

/-- The notifications sent before the feed is consulted: the start info,
plus the low-balance warning when the DeepSeek balance is below 1 CNY. -/
def startNotifs (env : Env) : List Notification :=
  Notification.info "工作流开始" "开始执行内容抓取和处理" ::
    (if env.deepSeekBalance < 1 then
        [Notification.warning "DeepSeek" "余额小于一元"]
      else [])

/-- The `summary` template literal of the completion report (after
`.trim()`). -/
def summaryText (total : Nat) (st : Stats) (successCount failedCount : Nat) :
    String :=
  "工作流执行完成\n        - 数据源: " ++ toString total ++
    " 个\n        - 成功: " ++ toString st.success ++
    " 个\n        - 失败: " ++ toString st.failed ++
    " 个\n        - 内容: " ++ toString st.contents ++
    " 条\n        - 发布: " ++ toString successCount ++ " 成功, " ++
    toString failedCount ++ " 失败"

/-- The observable outcome of one `process()` call: final stats, the
`publishResults` array, the notification trace, and whether the promise
resolved (`Except.ok ()`) or rejected with an error message. -/
structure RunResult where
  stats : Stats
  publishResults : List PublishResult
  notifications : List Notification
  outcome : Except String Unit
  deriving Repr

/-- `WeixinWorkflow.process`, run against collaborator behaviour `env`
from instance state `st0` (the value of `this.stats` on entry).  The
outer `try/catch` sends the `工作流失败` error notification and
re-throws for every fatal error; the `stats.contents === 0` branch
sends the `工作流终止` error notification and returns normally. -/
def process (env : Env) (st0 : Stats) : RunResult :=
  let base := startNotifs env
  if env.apiConfigured = false then
    { stats := st0
      publishResults := []
      notifications := base ++
        [Notification.error "工作流失败" "API URL 未配置，请检查 sourceConfigs.All.api"]
      outcome := Except.error "API URL 未配置，请检查 sourceConfigs.All.api" }
  else
    match env.feedResult with
    | Except.error msg =>
        { stats := st0
          publishResults := []
          notifications := base ++
            [Notification.error "API 请求失败" msg, Notification.error "工作流失败" msg]
          outcome := Except.error msg }
    | Except.ok data =>
        let batch := data.take 5
        if batch.isEmpty then
          { stats := st0
            publishResults := []
            notifications := base ++
              [Notification.error "数据源错误" "API 返回数据为空",
               Notification.error "工作流失败" "API 返回数据为空"]
            outcome := Except.error "API 返回数据为空" }
        else
          let r := runLoop env batch st0
          if r.1.contents = 0 then
            { stats := r.1
              publishResults := r.2.1
              notifications := base ++ r.2.2 ++
                [Notification.error "工作流终止" "未成功处理任何内容"]
              outcome := Except.ok () }
          else
            let successCount := (r.2.1.filter isPub).length
            let failedCount := r.2.1.length - successCount
            let s := summaryText batch.length r.1 successCount failedCount
            { stats := r.1
              publishResults := r.2.1
              notifications := base ++ r.2.2 ++
                [if r.1.failed > 0 || failedCount > 0 then
                    Notification.warning "工作流完成(部分失败)" s
                  else Notification.success "工作流完成" s]
              outcome := Except.ok () }

/-- Increment of the failed counter performed by the loop's failure
paths. -/
def incFailed (st : Stats) : Stats := { st with failed := st.failed + 1 }

/-- The error message with which some stage of one item's sub-pipeline
(scrape, cover generation, render, or publish) raises, following the
exact control flow of the loop body; `none` when no stage raises (the
summarize stage never raises out of `processContent`). -/
def stageError (env : Env) (item : FeedItem) : Option String :=
  match env.scrape item.url with
  | Except.error msg => some msg
  | Except.ok [] => none
  | Except.ok (c :: _) =>
      let article := toWeixinTemplate (processContent env c).1
      match generateAndUploadCover env article.title with
      | Except.error msg => some msg
      | Except.ok mediaId =>
          match env.render [article] with
          | Except.error msg => some msg
          | Except.ok rendered =>
              match env.publish rendered article.title article.title mediaId with
              | Except.error msg => some msg
              | Except.ok _ => none

/-- Notifications an item's sub-pipeline emits before its failure
warning: the summarize-fallback warning, when the item got past the
scrape. -/
def failNs (env : Env) (item : FeedItem) : List Notification :=
  match env.scrape item.url with
  | Except.ok (c :: _) => (processContent env c).2
  | _ => []

/-- Whether a notification is one of the two terminal end-of-run
notifications. -/
def isTerminalNotif (n : Notification) : Bool :=
  match n with
  | Notification.success "工作流完成" _ => true
  | Notification.warning "工作流完成(部分失败)" _ => true
  | _ => false

/-- How many stage invocations (scrape, summarize, cover generation,
render, publish) the loop body attempts for one item, following its
control flow: the scrape is always attempted; a non-empty scrape is
followed by the summarize and cover attempts; each further stage is
attempted when the previous one succeeded. -/
def stageInvocations (env : Env) (item : FeedItem) : Nat :=
  match env.scrape item.url with
  | Except.error _ => 1
  | Except.ok [] => 1
  | Except.ok (c :: _) =>
      let article := toWeixinTemplate (processContent env c).1
      match generateAndUploadCover env article.title with
      | Except.error _ => 3
      | Except.ok mediaId =>
          match env.render [article] with
          | Except.error _ => 4
          | Except.ok rendered =>
              match env.publish rendered article.title article.title mediaId with
              | Except.error _ => 5
              | Except.ok _ => 5

/-! Concrete collaborator behaviours used to evaluate the pipeline on
explicit inputs. -/

/-- A sample feed item. -/
def itemA : FeedItem :=
  { author := "a", cover := "c", id := "1", mobileUrl := "m",
    timestamp := 0, title := "T", url := "u" }

/-- A sample scraped content with a non-empty title and body. -/
def contentA : ScrapedContent :=
  { id := "1", title := "T", content := "B", url := "u",
    publishDate := "d", metadata := { keywords := none }, score := none }

/-- A sample summarizer response. -/
def summaryA : Summary :=
  { title := "ST", content := "SC", score := 5, keywords := ["k"] }

/-- Every collaborator succeeds; one feed item; publish reports
`published`. -/
def envAllOk : Env :=
  { deepSeekBalance := 2
    apiConfigured := true
    feedResult := Except.ok [itemA]
    scrape := fun _ => Except.ok [contentA]
    summarize := fun _ => Except.ok summaryA
    genImage := fun _ => Except.ok "task"
    waitCompletion := fun _ => Except.ok (some "img")
    uploadImage := fun _ => Except.ok "media"
    render := fun _ => Except.ok "html"
    publish := fun _ _ _ _ => Except.ok { status := "published" } }

/-- Like `envAllOk` but every scrape rejects with message `boom`. -/
def envScrapeFail : Env :=
  { envAllOk with scrape := fun _ => Except.error "boom" }

/-- Like `envAllOk` but every scrape resolves with no content. -/
def envScrapeEmpty : Env :=
  { envAllOk with scrape := fun _ => Except.ok [] }

/-- Like `envAllOk` but the feed resolves with an empty `data` array. -/
def envEmptyFeed : Env :=
  { envAllOk with feedResult := Except.ok [] }

/-- Like `envAllOk` but the publish call resolves with status
`failed`. -/
def envPubStatusFailed : Env :=
  { envAllOk with publish := fun _ _ _ _ => Except.ok { status := "failed" } }

/-- Like `envAllOk` but the summarizer rejects. -/
def envSummFail : Env :=
  { envAllOk with summarize := fun _ => Except.error "sfail" }

/-! Helper lemmas about the loop. -/

theorem stepItem_shift (env : Env) (item : FeedItem) (st : Stats) :
    stepItem env item st =
      (⟨st.success + (stepItem env item initialStats).1.success,
        st.failed + (stepItem env item initialStats).1.failed,
        st.contents + (stepItem env item initialStats).1.contents⟩,
       (stepItem env item initialStats).2) := by
  unfold stepItem
  cases hs : env.scrape item.url with
  | error msg => simp [initialStats]
  | ok cs =>
    cases cs with
    | nil => simp [initialStats]
    | cons c rest =>
      simp only []
      cases hg : generateAndUploadCover env (toWeixinTemplate (processContent env c).1).title with
      | error msg => simp [initialStats]
      | ok mediaId =>
        simp only []
        cases hr : env.render [toWeixinTemplate (processContent env c).1] with
        | error msg => simp [initialStats]
        | ok rendered =>
          simp only []
          cases hp : env.publish rendered (toWeixinTemplate (processContent env c).1).title
              (toWeixinTemplate (processContent env c).1).title mediaId with
          | error msg => simp [initialStats]
          | ok pr => simp [initialStats]

theorem stepItem_sum (env : Env) (item : FeedItem) (st : Stats) :
    (stepItem env item st).1.success + (stepItem env item st).1.failed =
      st.success + st.failed + 1 := by
  unfold stepItem
  cases hs : env.scrape item.url with
  | error msg => simp; omega
  | ok cs =>
    cases cs with
    | nil => simp; omega
    | cons c rest =>
      simp only []
      cases hg : generateAndUploadCover env (toWeixinTemplate (processContent env c).1).title with
      | error msg => simp; omega
      | ok mediaId =>
        simp only []
        cases hr : env.render [toWeixinTemplate (processContent env c).1] with
        | error msg => simp; omega
        | ok rendered =>
          simp only []
          cases hp : env.publish rendered (toWeixinTemplate (processContent env c).1).title
              (toWeixinTemplate (processContent env c).1).title mediaId with
          | error msg => simp; omega
          | ok pr => simp; omega

theorem runLoop_append (env : Env) (l₁ l₂ : List FeedItem) (st : Stats) :
    runLoop env (l₁ ++ l₂) st =
      ((runLoop env l₂ (runLoop env l₁ st).1).1,
       (runLoop env l₁ st).2.1 ++ (runLoop env l₂ (runLoop env l₁ st).1).2.1,
       (runLoop env l₁ st).2.2 ++ (runLoop env l₂ (runLoop env l₁ st).1).2.2) := by
  induction l₁ generalizing st with
  | nil => simp [runLoop]
  | cons a tl ih => simp [runLoop, ih]

theorem runLoop_shift (env : Env) (items : List FeedItem) (st : Stats) :
    runLoop env items st =
      (⟨st.success + (runLoop env items initialStats).1.success,
        st.failed + (runLoop env items initialStats).1.failed,
        st.contents + (runLoop env items initialStats).1.contents⟩,
       (runLoop env items initialStats).2) := by
  induction items generalizing st with
  | nil => simp [runLoop, initialStats]
  | cons a tl ih =>
    simp only [runLoop]
    rw [ih ((stepItem env a st).1), ih ((stepItem env a initialStats).1)]
    rw [stepItem_shift env a st]
    simp [initialStats, Nat.add_assoc]

theorem runLoop_sum (env : Env) (items : List FeedItem) (st : Stats) :
    (runLoop env items st).1.success + (runLoop env items st).1.failed =
      st.success + st.failed + items.length := by
  induction items generalizing st with
  | nil => simp [runLoop]
  | cons a tl ih =>
    simp only [runLoop, List.length_cons]
    rw [ih]
    have h := stepItem_sum env a st
    omega

theorem stepItem_of_stageError (env : Env) (item : FeedItem) (msg : String)
    (h : stageError env item = some msg) (st : Stats) :
    stepItem env item st =
      (incFailed st, none, failNs env item ++ [itemWarning item msg]) := by
  unfold stageError at h
  unfold stepItem failNs incFailed
  cases hs : env.scrape item.url with
  | error m => rw [hs] at h; simp at h; simp [h]
  | ok cs =>
    cases cs with
    | nil => rw [hs] at h; simp at h
    | cons c rest =>
      rw [hs] at h
      simp only [] at h
      simp only []
      cases hg : generateAndUploadCover env (toWeixinTemplate (processContent env c).1).title with
      | error m => rw [hg] at h; simp at h; simp [h]
      | ok mediaId =>
        rw [hg] at h
        simp only [] at h
        simp only []
        cases hr : env.render [toWeixinTemplate (processContent env c).1] with
        | error m => rw [hr] at h; simp at h; simp [h]
        | ok rendered =>
          rw [hr] at h
          simp only [] at h
          simp only []
          cases hp : env.publish rendered (toWeixinTemplate (processContent env c).1).title
              (toWeixinTemplate (processContent env c).1).title mediaId with
          | error m => rw [hp] at h; simp at h; simp [h]
          | ok pr => rw [hp] at h; simp at h

theorem stepItem_of_emptyScrape (env : Env) (item : FeedItem)
    (h : env.scrape item.url = Except.ok []) (st : Stats) :
    stepItem env item st = (incFailed st, none, []) := by
  unfold stepItem incFailed
  rw [h]

theorem processContent_snd (env : Env) (c : ScrapedContent) :
    (processContent env c).2 = [] ∨
    (processContent env c).2 =
      [Notification.warning "内容处理失败" ("ID: " ++ c.id ++ "\n保留原始内容")] := by
  unfold processContent
  cases env.summarize c <;> simp

theorem stepItem_notifs_not_terminal (env : Env) (item : FeedItem) (st : Stats) :
    ∀ n ∈ (stepItem env item st).2.2, isTerminalNotif n = false := by
  intro n hn
  have hpc : ∀ c, n ∈ (processContent env c).2 → isTerminalNotif n = false := by
    intro c hc
    rcases processContent_snd env c with h | h <;> rw [h] at hc <;> simp at hc
    subst hc; rfl
  unfold stepItem at hn
  cases hs : env.scrape item.url with
  | error msg =>
    rw [hs] at hn; simp at hn; subst hn; rfl
  | ok cs =>
    cases cs with
    | nil => rw [hs] at hn; simp at hn
    | cons c rest =>
      rw [hs] at hn
      simp only [] at hn
      cases hg : generateAndUploadCover env (toWeixinTemplate (processContent env c).1).title with
      | error msg =>
        rw [hg] at hn; simp at hn
        rcases hn with h | h
        · exact hpc c h
        · subst h; rfl
      | ok mediaId =>
        rw [hg] at hn
        simp only [] at hn
        cases hr : env.render [toWeixinTemplate (processContent env c).1] with
        | error msg =>
          rw [hr] at hn; simp at hn
          rcases hn with h | h
          · exact hpc c h
          · subst h; rfl
        | ok rendered =>
          rw [hr] at hn
          simp only [] at hn
          cases hp : env.publish rendered (toWeixinTemplate (processContent env c).1).title
              (toWeixinTemplate (processContent env c).1).title mediaId with
          | error msg =>
            rw [hp] at hn; simp at hn
            rcases hn with h | h
            · exact hpc c h
            · subst h; rfl
          | ok pr =>
            rw [hp] at hn; simp at hn
            exact hpc c hn

theorem runLoop_notifs_not_terminal (env : Env) (items : List FeedItem) (st : Stats) :
    ∀ n ∈ (runLoop env items st).2.2, isTerminalNotif n = false := by
  induction items generalizing st with
  | nil => simp [runLoop]
  | cons a tl ih =>
    intro n hn
    simp only [runLoop, List.mem_append] at hn
    rcases hn with h | h
    · exact stepItem_notifs_not_terminal env a st n h
    · exact ih _ n h

theorem startNotifs_not_terminal (env : Env) :
    ∀ n ∈ startNotifs env, isTerminalNotif n = false := by
  intro n hn
  unfold startNotifs at hn
  by_cases h : env.deepSeekBalance < 1 <;> simp [h] at hn
  · rcases hn with h1 | h1 <;> (subst h1; rfl)
  · subst hn; rfl

theorem length_sub_filter_isPub (l : List PublishResult) :
    l.length - (l.filter isPub).length =
      (l.filter (fun p => !(isPub p))).length := by
  induction l with
  | nil => rfl
  | cons a tl ih =>
    have hle := List.length_filter_le isPub tl
    by_cases h : isPub a <;> simp [List.filter_cons, h] <;> omega

theorem process_stats (env : Env) (st0 : Stats) :
    (process env st0).stats =
      if env.apiConfigured = false then st0
      else
        match env.feedResult with
        | Except.error _ => st0
        | Except.ok data =>
            if (data.take 5).isEmpty then st0
            else (runLoop env (data.take 5) st0).1 := by
  unfold process
  by_cases hc : env.apiConfigured = false
  · simp [hc]
  · simp only [hc, if_false, ite_false]
    cases hf : env.feedResult with
    | error m => simp
    | ok data =>
      simp only []
      by_cases he : (data.take 5).isEmpty <;> simp [he]
      split <;> rfl

theorem stepItem_ext (e1 e2 : Env)
    (hsc : e1.scrape = e2.scrape) (hsum : e1.summarize = e2.summarize)
    (hgen : e1.genImage = e2.genImage) (hwait : e1.waitCompletion = e2.waitCompletion)
    (hup : e1.uploadImage = e2.uploadImage) (hren : e1.render = e2.render)
    (hpub : e1.publish = e2.publish) (item : FeedItem) (st : Stats) :
    stepItem e1 item st = stepItem e2 item st := by
  have hpc : ∀ c, processContent e1 c = processContent e2 c := by
    intro c; unfold processContent; rw [hsum]
  have hcov : ∀ t, generateAndUploadCover e1 t = generateAndUploadCover e2 t := by
    intro t; unfold generateAndUploadCover; simp only [hgen, hwait, hup]
  unfold stepItem
  simp only [hsc, hpc, hcov, hren, hpub]

theorem runLoop_ext (e1 e2 : Env)
    (hsc : e1.scrape = e2.scrape) (hsum : e1.summarize = e2.summarize)
    (hgen : e1.genImage = e2.genImage) (hwait : e1.waitCompletion = e2.waitCompletion)
    (hup : e1.uploadImage = e2.uploadImage) (hren : e1.render = e2.render)
    (hpub : e1.publish = e2.publish) (items : List FeedItem) (st : Stats) :
    runLoop e1 items st = runLoop e2 items st := by
  induction items generalizing st with
  | nil => rfl
  | cons a tl ih =>
    simp only [runLoop,
      stepItem_ext e1 e2 hsc hsum hgen hwait hup hren hpub a st, ih]

theorem process_take5 (e1 e2 : Env) (data : List FeedItem) (st0 : Stats)
    (h1 : e1.feedResult = Except.ok data)
    (h2 : e2.feedResult = Except.ok (data.take 5))
    (hbal : e2.deepSeekBalance = e1.deepSeekBalance)
    (hcfg : e2.apiConfigured = e1.apiConfigured)
    (hsc : e2.scrape = e1.scrape) (hsum : e2.summarize = e1.summarize)
    (hgen : e2.genImage = e1.genImage) (hwait : e2.waitCompletion = e1.waitCompletion)
    (hup : e2.uploadImage = e1.uploadImage) (hren : e2.render = e1.render)
    (hpub : e2.publish = e1.publish) :
    process e1 st0 = process e2 st0 := by
  have hsn : startNotifs e2 = startNotifs e1 := by
    unfold startNotifs; rw [hbal]
  have hrl : ∀ items st, runLoop e2 items st = runLoop e1 items st :=
    runLoop_ext e2 e1 hsc hsum hgen hwait hup hren hpub
  unfold process
  rw [h1, h2, hcfg, hsn]
  simp only [List.take_take, Nat.min_self]
  simp only [hrl]

/-- Claim C1 counterexample: a summarizer rejection is not caught at
the item boundary: on a run whose only item's summarizer rejects (all
other stages succeeding), the `failed` counter is not incremented, no
warning naming the item and the error is sent, and the item is fully
processed and published — contradicting the claim that an error raised
by the summarize stage increments `failed` and triggers the item
warning. -/
theorem summarizeNotItemBoundaryCounterexample :
    envSummFail.summarize contentA = Except.error "sfail" ∧
    (process envSummFail initialStats).stats.failed = 0 ∧
    (process envSummFail initialStats).stats.success = 1 ∧
    itemWarning itemA "sfail" ∉ (process envSummFail initialStats).notifications :=
  ⟨rfl, by decide, by decide, by decide⟩

/-- Claim C1 (amended): any error raised by a stage other than
summarization — scrape, cover generation, render, or publish — for one
item is caught at the item boundary: `failed` is incremented, a warning
naming the item's URL and the error message is sent, and the loop
continues with the remaining items exactly as it would have from the
updated counters; no exception escapes the item.  (A summarizer
rejection is instead recovered inside `processContent` without touching
`failed`, and the item proceeds to publication.) -/
theorem perItemFailureIsolation (env : Env) (pre post : List FeedItem)
    (item : FeedItem) (st : Stats) (msg : String)
    (h : stageError env item = some msg) :
    stepItem env item (runLoop env pre st).1 =
      (incFailed (runLoop env pre st).1, none,
       failNs env item ++ [itemWarning item msg]) ∧
    runLoop env (pre ++ item :: post) st =
      ((runLoop env post (incFailed (runLoop env pre st).1)).1,
       (runLoop env pre st).2.1 ++
         (runLoop env post (incFailed (runLoop env pre st).1)).2.1,
       (runLoop env pre st).2.2 ++
         (failNs env item ++ [itemWarning item msg]) ++
         (runLoop env post (incFailed (runLoop env pre st).1)).2.2) := by
  refine ⟨stepItem_of_stageError env item msg h _, ?_⟩
  rw [runLoop_append]
  simp only [runLoop]
  rw [stepItem_of_stageError env item msg h]
  simp [List.append_assoc]

/-- Claim C1 witness: a batch consisting of one item whose scrape rejects. -/
theorem perItemFailureIsolationWitness :
    stageError envScrapeFail itemA = some "boom" ∧
    runLoop envScrapeFail ([] ++ itemA :: []) initialStats =
      ((runLoop envScrapeFail []
          (incFailed (runLoop envScrapeFail [] initialStats).1)).1,
       (runLoop envScrapeFail [] initialStats).2.1 ++
         (runLoop envScrapeFail []
            (incFailed (runLoop envScrapeFail [] initialStats).1)).2.1,
       (runLoop envScrapeFail [] initialStats).2.2 ++
         (failNs envScrapeFail itemA ++ [itemWarning itemA "boom"]) ++
         (runLoop envScrapeFail []
            (incFailed (runLoop envScrapeFail [] initialStats).1)).2.2) :=
  ⟨rfl, (perItemFailureIsolation envScrapeFail [] [] itemA initialStats "boom" rfl).2⟩

/-- Claim C10: a scrape that resolves with an empty content list makes
the loop increment `failed` and move to the next item without sending
any notification for that item. -/
theorem emptyScrapeSkipsSilently (env : Env) (pre post : List FeedItem)
    (item : FeedItem) (st : Stats)
    (h : env.scrape item.url = Except.ok []) :
    stepItem env item (runLoop env pre st).1 =
      (incFailed (runLoop env pre st).1, none, []) ∧
    runLoop env (pre ++ item :: post) st =
      ((runLoop env post (incFailed (runLoop env pre st).1)).1,
       (runLoop env pre st).2.1 ++
         (runLoop env post (incFailed (runLoop env pre st).1)).2.1,
       (runLoop env pre st).2.2 ++
         (runLoop env post (incFailed (runLoop env pre st).1)).2.2) := by
  refine ⟨stepItem_of_emptyScrape env item h _, ?_⟩
  rw [runLoop_append]
  simp only [runLoop]
  rw [stepItem_of_emptyScrape env item h]
  simp

/-- Claim C10 witness: a batch of one item whose scrape finds nothing. -/
theorem emptyScrapeSkipsSilentlyWitness :
    envScrapeEmpty.scrape itemA.url = Except.ok [] ∧
    stepItem envScrapeEmpty itemA (runLoop envScrapeEmpty [] initialStats).1 =
      (incFailed (runLoop envScrapeEmpty [] initialStats).1, none, []) :=
  ⟨rfl, (emptyScrapeSkipsSilently envScrapeEmpty [] [] itemA initialStats rfl).1⟩

/-- Claim C3 counterexample: the counters are not reset by `process`:
after a first run on a fresh instance ends with `failed = 1`, a second
`process` call on the same instance starts from those counters, so an
identical failing run ends with `failed = 2` instead of 1. -/
theorem statsNotResetCounterexample :
    (process envScrapeFail initialStats).stats.failed = 1 ∧
    (process envScrapeFail
        (process envScrapeFail initialStats).stats).stats.failed = 2 :=
  ⟨by decide, by decide⟩

/-- Claim C3 (amended): the counters are zero only at instance
construction (`initialStats`); `process` never resets them, so each run
adds its own deltas on top of whatever the instance state held on
entry. -/
theorem statsAccumulateAcrossRuns (env : Env) (st0 : Stats) :
    (process env st0).stats.success =
      st0.success + (process env initialStats).stats.success ∧
    (process env st0).stats.failed =
      st0.failed + (process env initialStats).stats.failed ∧
    (process env st0).stats.contents =
      st0.contents + (process env initialStats).stats.contents := by
  rw [process_stats, process_stats]
  by_cases hc : env.apiConfigured = false
  · simp [hc, initialStats]
  · simp only [hc, if_false, ite_false]
    cases hf : env.feedResult with
    | error m => simp [initialStats]
    | ok data =>
      simp only []
      by_cases he : (data.take 5).isEmpty
      · simp [he, initialStats]
      · simp only [he, if_false, ite_false]
        rw [runLoop_shift env (data.take 5) st0]
        simp [initialStats]

/-- Claim C2 counterexample: on a run where no item is fully processed
(`contents = 0` after the loop), `process` resolves normally
(`Except.ok ()`) instead of re-raising: the "no content processed"
outcome does not propagate to the caller. -/
theorem zeroProcessedReturnCounterexample :
    (process envScrapeFail initialStats).stats.contents = 0 ∧
    (process envScrapeFail initialStats).outcome = Except.ok () :=
  ⟨by decide, rfl⟩

/-- Claim C2 (amended): if after the loop zero items were fully
processed, `process` sends only the `工作流终止` error notification
after the loop's own notifications, skips the summary report and the
terminal success/partial-failure notification, and returns normally
without raising. -/
theorem zeroProcessedTerminatesWithoutRaising (env : Env) (st0 : Stats)
    (data : List FeedItem)
    (hc : env.apiConfigured = true) (hf : env.feedResult = Except.ok data)
    (hne : (data.take 5).isEmpty = false)
    (hz : (runLoop env (data.take 5) st0).1.contents = 0) :
    process env st0 =
      { stats := (runLoop env (data.take 5) st0).1
        publishResults := (runLoop env (data.take 5) st0).2.1
        notifications := startNotifs env ++ (runLoop env (data.take 5) st0).2.2 ++
          [Notification.error "工作流终止" "未成功处理任何内容"]
        outcome := Except.ok () } := by
  unfold process
  rw [hc, hf]
  simp [hne, hz]

/-- Claim C2 witness: one item whose scrape rejects, so nothing is
processed. -/
theorem zeroProcessedTerminatesWithoutRaisingWitness :
    (runLoop envScrapeFail ([itemA].take 5) initialStats).1.contents = 0 ∧
    process envScrapeFail initialStats =
      { stats := (runLoop envScrapeFail ([itemA].take 5) initialStats).1
        publishResults := (runLoop envScrapeFail ([itemA].take 5) initialStats).2.1
        notifications := startNotifs envScrapeFail ++
          (runLoop envScrapeFail ([itemA].take 5) initialStats).2.2 ++
          [Notification.error "工作流终止" "未成功处理任何内容"]
        outcome := Except.ok () } :=
  ⟨by decide,
   zeroProcessedTerminatesWithoutRaising envScrapeFail initialStats [itemA]
     rfl rfl (by decide) (by decide)⟩

/-- Claim C5: the batch is capped to the first 5 feed elements:
the run's outcome is identical to a run whose feed returned only those
first 5 elements, and (when the capped batch is non-empty) the final
stats and accumulated publish results are exactly those of the loop
over the first 5 elements — items beyond the cap are never consulted. -/
theorem boundedBatchCap (env : Env) (data : List FeedItem) (st0 : Stats)
    (hc : env.apiConfigured = true) (hf : env.feedResult = Except.ok data) :
    process env st0 =
      process { env with feedResult := Except.ok (data.take 5) } st0 ∧
    ((data.take 5).isEmpty = false →
      (process env st0).stats = (runLoop env (data.take 5) st0).1 ∧
      (process env st0).publishResults = (runLoop env (data.take 5) st0).2.1) := by
  constructor
  · exact process_take5 env { env with feedResult := Except.ok (data.take 5) }
      data st0 hf rfl rfl rfl rfl rfl rfl rfl rfl rfl rfl
  · intro hne
    unfold process
    rw [hc, hf]
    rw [if_neg (by simp)]
    simp only [hne]
    rw [if_neg (by simp)]
    constructor <;> split <;> rfl

/-- Claim C5 witness: a concrete configured feed. -/
theorem boundedBatchCapWitness :
    envAllOk.feedResult = Except.ok [itemA] ∧
    process envAllOk initialStats =
      process { envAllOk with feedResult := Except.ok ([itemA].take 5) }
        initialStats :=
  ⟨rfl, (boundedBatchCap envAllOk [itemA] initialStats rfl rfl).1⟩

/-- Claim C7 counterexample: on an empty feed the run does raise before
any stage executes, but the notification trace is not just one error
notification: the run-start info notification precedes it and the outer
catch adds a second error notification. -/
theorem emptyFeedNotifsCounterexample :
    (process envEmptyFeed initialStats).notifications =
      [Notification.info "工作流开始" "开始执行内容抓取和处理",
       Notification.error "数据源错误" "API 返回数据为空",
       Notification.error "工作流失败" "API 返回数据为空"] ∧
    Notification.info "工作流开始" "开始执行内容抓取和处理" ∈
      (process envEmptyFeed initialStats).notifications :=
  ⟨by decide, by decide⟩

/-- Claim C7 (amended): an empty feed response is fatal before any stage
executes: the stats are untouched (zero stage invocations), no publish
results accumulate, `process` rejects with the `API 返回数据为空` error,
and besides the pre-feed notifications (the run-start info and possibly
the low-balance warning) only the two error notifications are sent —
no warning, summary, or terminal notification. -/
theorem emptyFeedFatalBeforeStages (env : Env) (st0 : Stats)
    (hc : env.apiConfigured = true) (hf : env.feedResult = Except.ok []) :
    process env st0 =
      { stats := st0
        publishResults := []
        notifications := startNotifs env ++
          [Notification.error "数据源错误" "API 返回数据为空",
           Notification.error "工作流失败" "API 返回数据为空"]
        outcome := Except.error "API 返回数据为空" } := by
  unfold process
  rw [hc, hf]
  simp

/-- Claim C7 witness. -/
theorem emptyFeedFatalBeforeStagesWitness :
    envEmptyFeed.feedResult = Except.ok [] ∧
    process envEmptyFeed initialStats =
      { stats := initialStats
        publishResults := []
        notifications := startNotifs envEmptyFeed ++
          [Notification.error "数据源错误" "API 返回数据为空",
           Notification.error "工作流失败" "API 返回数据为空"]
        outcome := Except.error "API 返回数据为空" } :=
  ⟨rfl, emptyFeedFatalBeforeStages envEmptyFeed initialStats rfl rfl⟩

/-- Claim C4 counterexample: a single candidate whose whole sub-pipeline
succeeds gives `success + failed = 1` while five stage invocations
(scrape, summarize, cover, render, publish) were attempted, so the sum
does not equal the number of stage invocations attempted. -/
theorem statsSumCounterexample :
    (process envAllOk initialStats).stats.success +
      (process envAllOk initialStats).stats.failed = 1 ∧
    stageInvocations envAllOk itemA = 5 ∧
    (1 : Nat) ≠ 5 :=
  ⟨by decide, by decide, by decide⟩

/-- Claim C4 (amended): at every point during a run — that is, after any
prefix of the capped batch has been consumed — the increase of
`success + failed` over the counters at run entry equals the number of
candidates whose sub-pipeline has been attempted so far (each candidate
contributes exactly one increment, whether `success` or `failed`), and
that number never exceeds the number of candidates in the capped
batch. -/
theorem statsSumInvariant (env : Env) (data : List FeedItem) (st0 : Stats)
    (n : Nat) (_hf : env.feedResult = Except.ok data) :
    (runLoop env ((data.take 5).take n) st0).1.success +
      (runLoop env ((data.take 5).take n) st0).1.failed =
      st0.success + st0.failed + ((data.take 5).take n).length ∧
    ((data.take 5).take n).length ≤ (data.take 5).length := by
  refine ⟨runLoop_sum env ((data.take 5).take n) st0, ?_⟩
  simp [List.length_take]

/-- Claim C4 witness. -/
theorem statsSumInvariantWitness :
    envAllOk.feedResult = Except.ok [itemA] ∧
    (runLoop envAllOk (([itemA].take 5).take 1) initialStats).1.success +
      (runLoop envAllOk (([itemA].take 5).take 1) initialStats).1.failed =
      initialStats.success + initialStats.failed +
        (([itemA].take 5).take 1).length ∧
    (([itemA].take 5).take 1).length ≤ ([itemA].take 5).length :=
  ⟨rfl, statsSumInvariant envAllOk [itemA] initialStats 1 rfl⟩

/-- Claim C6: when the summarizer rejects, `processContent` does not
propagate: the content keeps its original title and body through `jsOr`
(so the fixed placeholders are used exactly when those fields are the
empty string), the keyword list defaults to the empty list, one warning
notification is emitted, and the item still proceeds through cover
generation, rendering and publishing — succeeding when those stages
succeed. -/
theorem summarizeFailureFallsBack (env : Env) (c : ScrapedContent) (msg : String)
    (h : env.summarize c = Except.error msg) :
    processContent env c =
      ({ c with
          title := jsOr c.title "无标题"
          content := jsOr c.content "内容处理失败"
          metadata := { c.metadata with
                        keywords := some (jsOrList c.metadata.keywords []) } },
       [Notification.warning "内容处理失败" ("ID: " ++ c.id ++ "\n保留原始内容")]) ∧
    (∀ (item : FeedItem) (st : Stats) (rest : List ScrapedContent)
        (mediaId rendered : String) (pr : PublishResult),
      env.scrape item.url = Except.ok (c :: rest) →
      generateAndUploadCover env
          (toWeixinTemplate (processContent env c).1).title = Except.ok mediaId →
      env.render [toWeixinTemplate (processContent env c).1] = Except.ok rendered →
      env.publish rendered (toWeixinTemplate (processContent env c).1).title
          (toWeixinTemplate (processContent env c).1).title mediaId = Except.ok pr →
      stepItem env item st =
        ({ st with success := st.success + 1, contents := st.contents + 1 },
         some pr,
         [Notification.warning "内容处理失败" ("ID: " ++ c.id ++ "\n保留原始内容")])) := by
  have h1 : processContent env c =
      ({ c with
          title := jsOr c.title "无标题"
          content := jsOr c.content "内容处理失败"
          metadata := { c.metadata with
                        keywords := some (jsOrList c.metadata.keywords []) } },
       [Notification.warning "内容处理失败" ("ID: " ++ c.id ++ "\n保留原始内容")]) := by
    unfold processContent
    rw [h]
  refine ⟨h1, ?_⟩
  intro item st rest mediaId rendered pr hsc hcov hren hpub
  unfold stepItem
  rw [hsc]
  simp only []
  rw [hcov]
  simp only []
  rw [hren]
  simp only []
  rw [hpub]
  simp [h1]

/-- Claim C6 witness: summarizer rejects but cover, render and publish
succeed; the item is published with the fallback content. -/
theorem summarizeFailureFallsBackWitness :
    envSummFail.summarize contentA = Except.error "sfail" ∧
    stepItem envSummFail itemA initialStats =
      ({ initialStats with
          success := initialStats.success + 1
          contents := initialStats.contents + 1 },
       some { status := "published" },
       [Notification.warning "内容处理失败" ("ID: " ++ contentA.id ++ "\n保留原始内容")]) :=
  ⟨rfl,
   (summarizeFailureFallsBack envSummFail contentA "sfail" rfl).2 itemA
     initialStats [] "media" "html" { status := "published" } rfl rfl rfl rfl⟩

/-- Claim C9 counterexample: a publish call that resolves with status
`failed` still pushes its result, so the PublishResults sequence holds
one entry while zero items were successfully published (no entry has
status `published` or `draft`). -/
theorem publishResultsEntryCounterexample :
    (process envPubStatusFailed initialStats).publishResults.length = 1 ∧
    ((process envPubStatusFailed initialStats).publishResults.filter isPub).length
      = 0 :=
  ⟨by decide, by decide⟩

/-- Claim C9 (amended): candidates are processed one at a time in input
order; the PublishResults sequence contains exactly one entry — in that
same order — per candidate whose publish call completed without raising
(whatever status the result carries); and only the first element of a
scrape result is ever used: replacing the tail of the scrape result
changes nothing. -/
theorem orderingAndFirstResult (env : Env) (items : List FeedItem) (st : Stats) :
    (runLoop env items st).2.1 =
      items.filterMap (fun it => (stepItem env it initialStats).2.1) ∧
    (∀ (item : FeedItem) (c : ScrapedContent) (rest : List ScrapedContent)
        (st' : Stats),
      env.scrape item.url = Except.ok (c :: rest) →
      stepItem env item st' =
        stepItem
          { env with
              scrape := fun u =>
                if u = item.url then Except.ok [c] else env.scrape u }
          item st') := by
  constructor
  · induction items generalizing st with
    | nil => simp [runLoop]
    | cons a tl ih =>
      simp only [runLoop, List.filterMap_cons]
      rw [stepItem_shift env a st]
      cases hsa : (stepItem env a initialStats).2.1 <;>
        simp [hsa, ih]
  · intro item c rest st' hs
    have hs' : (({ env with
        scrape := fun u =>
          if u = item.url then Except.ok [c] else env.scrape u } : Env)).scrape
          item.url = Except.ok [c] := by simp
    unfold stepItem
    rw [hs, hs']
    rfl

/-- Claim C9 witness: instantiated on a batch of one all-succeeding item
(whose scrape resolves with the single content `contentA`). -/
theorem orderingAndFirstResultWitness :
    envAllOk.scrape itemA.url = Except.ok [contentA] ∧
    (runLoop envAllOk [itemA] initialStats).2.1 =
      [itemA].filterMap (fun it => (stepItem envAllOk it initialStats).2.1) ∧
    stepItem envAllOk itemA initialStats =
      stepItem
        { envAllOk with
            scrape := fun u =>
              if u = itemA.url then Except.ok [contentA] else envAllOk.scrape u }
        itemA initialStats :=
  ⟨rfl,
   (orderingAndFirstResult envAllOk [itemA] initialStats).1,
   (orderingAndFirstResult envAllOk [itemA] initialStats).2 itemA contentA []
     initialStats rfl⟩

theorem terminal_trace (base loop : List Notification) (T : Notification)
    (hbase : ∀ n ∈ base, isTerminalNotif n = false)
    (hloop : ∀ n ∈ loop, isTerminalNotif n = false)
    (hT : isTerminalNotif T = true) :
    ((base ++ loop ++ [T]).filter isTerminalNotif).length = 1 ∧
    (base ++ loop ++ [T]).getLast? = some T := by
  constructor
  · have h1 : base.filter isTerminalNotif = [] :=
      List.filter_eq_nil_iff.mpr (by intro a ha; simp [hbase a ha])
    have h2 : loop.filter isTerminalNotif = [] :=
      List.filter_eq_nil_iff.mpr (by intro a ha; simp [hloop a ha])
    simp [List.filter_append, h1, h2, hT]
  · rw [List.getLast?_concat]

/-- Claim C8: every run reaching the reporting step dispatches exactly
one terminal notification (it is the last notification of the run), and
it is the clean-success notification precisely when the stage `failed`
counter is zero and no accumulated PublishResult has a status other
than `published` or `draft`; otherwise it is the partial-failure
warning. -/
theorem terminalClassification (env : Env) (st0 : Stats) (data : List FeedItem)
    (hc : env.apiConfigured = true) (hf : env.feedResult = Except.ok data)
    (hne : (data.take 5).isEmpty = false)
    (hcont : (runLoop env (data.take 5) st0).1.contents ≠ 0) :
    (((process env st0).notifications.filter isTerminalNotif).length = 1) ∧
    ((process env st0).notifications.getLast? = some
        (Notification.success "工作流完成"
          (summaryText (data.take 5).length (runLoop env (data.take 5) st0).1
            ((runLoop env (data.take 5) st0).2.1.filter isPub).length
            ((runLoop env (data.take 5) st0).2.1.filter
                (fun p => !(isPub p))).length)) ↔
      ((runLoop env (data.take 5) st0).1.failed = 0 ∧
        ((runLoop env (data.take 5) st0).2.1.filter
            (fun p => !(isPub p))).length = 0)) ∧
    (¬((runLoop env (data.take 5) st0).1.failed = 0 ∧
        ((runLoop env (data.take 5) st0).2.1.filter
            (fun p => !(isPub p))).length = 0) →
      (process env st0).notifications.getLast? = some
        (Notification.warning "工作流完成(部分失败)"
          (summaryText (data.take 5).length (runLoop env (data.take 5) st0).1
            ((runLoop env (data.take 5) st0).2.1.filter isPub).length
            ((runLoop env (data.take 5) st0).2.1.filter
                (fun p => !(isPub p))).length))) := by
  have hstartT := startNotifs_not_terminal env
  have hloopT := runLoop_notifs_not_terminal env (data.take 5) st0
  unfold process
  rw [hc, hf]
  rw [if_neg (by simp)]
  simp only [hne]
  rw [if_neg (by simp)]
  rw [if_neg hcont]
  simp only []
  rw [length_sub_filter_isPub]
  by_cases hb : (runLoop env (data.take 5) st0).1.failed = 0 ∧
      ((runLoop env (data.take 5) st0).2.1.filter (fun p => !(isPub p))).length = 0
  · rw [if_neg (by simp [hb.1, hb.2])]
    have ht := terminal_trace (startNotifs env)
      (runLoop env (data.take 5) st0).2.2
      (Notification.success "工作流完成"
        (summaryText (data.take 5).length (runLoop env (data.take 5) st0).1
          ((runLoop env (data.take 5) st0).2.1.filter isPub).length
          ((runLoop env (data.take 5) st0).2.1.filter
              (fun p => !(isPub p))).length))
      hstartT hloopT rfl
    refine ⟨ht.1, ?_, ?_⟩
    · rw [ht.2]
      simp [hb]
    · intro hcontr
      exact absurd hb hcontr
  · rw [if_pos (by
      rcases Nat.eq_zero_or_pos (runLoop env (data.take 5) st0).1.failed with h0 | h0
      · rcases Nat.eq_zero_or_pos
            ((runLoop env (data.take 5) st0).2.1.filter (fun p => !(isPub p))).length
          with h1 | h1
        · exact absurd ⟨h0, h1⟩ hb
        · simp [h1]
      · simp [h0])]
    have ht := terminal_trace (startNotifs env)
      (runLoop env (data.take 5) st0).2.2
      (Notification.warning "工作流完成(部分失败)"
        (summaryText (data.take 5).length (runLoop env (data.take 5) st0).1
          ((runLoop env (data.take 5) st0).2.1.filter isPub).length
          ((runLoop env (data.take 5) st0).2.1.filter
              (fun p => !(isPub p))).length))
      hstartT hloopT rfl
    refine ⟨ht.1, ?_, fun _ => ht.2⟩
    rw [ht.2]
    constructor
    · intro hEq
      exact absurd (Option.some.inj hEq) (by simp)
    · intro hcontr
      exact absurd hcontr hb

/-- Claim C8 witness: an all-succeeding one-item run is reported with
the clean-success notification. -/
theorem terminalClassificationWitness :
    (runLoop envAllOk ([itemA].take 5) initialStats).1.contents ≠ 0 ∧
    ((process envAllOk initialStats).notifications.filter isTerminalNotif).length
      = 1 :=
  ⟨by decide,
   (terminalClassification envAllOk initialStats [itemA] rfl rfl (by decide)
     (by decide)).1⟩

end Weixin
